import Mathlib

/-
Verification of nebula-keybind-menu (src/main.rs) against its specification.

The embedding below models the pure core of the program: the keybind data
model, the config fallback chain (load_keybinds), the search filter and the
line layout of App::render_content, App::make_desc_line, and the event/state
machine of App::handle_events and App::run.  Filesystem and TOML parsing are
abstracted: each config tier is an `Option Config` that is `none` exactly when
the file is missing, unreadable or unparseable.  Rust `u16` arithmetic on the
scroll offset is modelled as `Nat` with explicit saturation at 65535 and the
`as u16` cast as `% 65536`.  Rust byte lengths are modelled as character
counts, and `str::to_lowercase` / `str::trim` as character-wise lowering and
whitespace-stripping over the underlying character list.
-/

namespace KeybindMenu

/-- One keybind record: struct Keybind of src/main.rs (lines 21-26). -/
structure Keybind where
  keys : String
  name : String
  desc : String
deriving DecidableEq, Repr

/-- A parsed configuration file: struct Config (lines 28-31). -/
structure Config where
  keybinds : List Keybind
deriving DecidableEq, Repr

/-- Model of Rust str::to_lowercase: case-fold every character. -/
def toLowerStr (s : String) : String := ⟨s.data.map Char.toLower⟩

/-- Model of Rust str::trim: strip whitespace from both ends. -/
def trimStr (s : String) : String :=
  ⟨((s.data.dropWhile Char.isWhitespace).reverse.dropWhile Char.isWhitespace).reverse⟩

/-- Model of Rust str::contains with a string pattern: the needle occurs as a
contiguous substring of the haystack. -/
def substrB (needle hay : String) : Bool := decide (needle.data <:+: hay.data)

/-- The hard-coded fallback keybind list of load_keybinds (lines 315-336). -/
def default_keybinds : List Keybind :=
  [⟨"SUPER + SPACE", "Launcher", "Open app launcher"⟩,
   ⟨"SUPER + B", "Web Browser", "Open default browser"⟩,
   ⟨"SUPER + ENTER", "Terminal", "Open terminal"⟩,
   ⟨"SUPER + Q", "Close Window", "Close focused window"⟩]

/-- The system-config tier of load_keybinds (lines 306-312) followed by the
default fallback: accepted only when parsing succeeded and the list is
non-empty. -/
def fromSystem (system : Option Config) : List Keybind :=
  match system with
  | some cfg => if cfg.keybinds.isEmpty then default_keybinds else cfg.keybinds
  | none => default_keybinds

/-- load_keybinds (lines 286-337).  The two arguments are the read-and-parse
results of the user tier and the system tier; a tier is `none` when its file
is missing, unreadable or fails to parse. -/
def load_keybinds (user system : Option Config) : List Keybind :=
  match user with
  | some cfg => if cfg.keybinds.isEmpty then fromSystem system else cfg.keybinds
  | none => fromSystem system

/-- The match predicate of the filter closure in render_content (lines
193-196).  As in the Rust code the query is lowercased once by the caller and
compared against the lowercased name and description. -/
def matchesQuery (query : String) (item : Keybind) : Bool :=
  substrB query (toLowerStr item.name) || substrB query (toLowerStr item.desc)

/-- The filtered item list of render_content (lines 189-197). -/
def filterItems (items : List Keybind) (rawQuery : String) : List Keybind :=
  items.filter (matchesQuery (toLowerStr rawQuery))

/-- A run of n spaces. -/
def spaces (n : Nat) : String := ⟨List.replicate n ' '⟩

/-- A run of n dashes. -/
def dashes (n : Nat) : String := ⟨List.replicate n '-'⟩

/-- The key/name line built in render_content (lines 209-223): the keys field
with one appended space, then a spacer, then the name.  The spacer is
width - reserved when width exceeds reserved = |keys| + 1 + |name|, and a
single space otherwise. -/
def keyNameLine (kb : Keybind) (w : Nat) : String :=
  let keyText := kb.keys ++ " "
  let reserved := keyText.length + kb.name.length
  let spacerLen := if reserved < w then w - reserved else 1
  keyText ++ spaces spacerLen ++ kb.name

/-- App::make_desc_line (lines 246-266). -/
def make_desc_line (desc : String) (width : Nat) : String :=
  let trimmed := trimStr desc
  if width = 0 then trimmed
  else
    let desc_len := trimmed.length
    let min_needed := desc_len + 4
    if width < min_needed then trimmed
    else
      let dash_total := width - desc_len - 2
      let left := dash_total / 2
      let right := dash_total - left
      dashes left ++ " " ++ trimmed ++ " " ++ dashes right

/-- The per-item line construction loop of render_content (lines 206-228):
for each item a key/name line, a decorated description line when the
description is non-empty, and a blank spacer line. -/
def buildLines (items : List Keybind) (w : Nat) : List String :=
  match items with
  | [] => []
  | item :: rest =>
      ([keyNameLine item w]
        ++ (if item.desc = "" then [] else [make_desc_line item.desc w])
        ++ [" "]) ++ buildLines rest w

/-- Application state: struct App (lines 33-42).  search_input is modelled by
its current text value; the u16 fields scroll_offset and content_height are
Nat kept below 2^16 by the saturating operations. -/
structure AppState where
  should_quit : Bool
  searchValue : String
  items : List Keybind
  items_loaded : Bool
  scroll_offset : Nat
  content_height : Nat
deriving DecidableEq, Repr

/-- App::new (lines 45-56). -/
def initApp : AppState :=
  { should_quit := false, searchValue := "", items := [], items_loaded := false,
    scroll_offset := 0, content_height := 0 }

/-- u16::saturating_add. -/
def satAdd16 (a b : Nat) : Nat := min (a + b) 65535

/-- One key-press event as dispatched by App::handle_events (lines 79-99).
textEdit stands for every other key, which tui_input folds into a new value
of the search input. -/
inductive InputEvent where
  | esc
  | up
  | down
  | pageUp
  | pageDown
  | ctrlC
  | textEdit (newValue : String)
deriving DecidableEq, Repr

/-- App::handle_events on one key-press event (lines 79-99).  Up/Down use
u16 saturating arithmetic; PageUp/PageDown step by max(content_height, 1);
any other key is forwarded to the input widget and resets the offset to 0. -/
def handleEvent (s : AppState) (e : InputEvent) : AppState :=
  match e with
  | InputEvent.esc => { s with should_quit := true }
  | InputEvent.up => { s with scroll_offset := s.scroll_offset - 1 }
  | InputEvent.down => { s with scroll_offset := satAdd16 s.scroll_offset 1 }
  | InputEvent.pageUp =>
      { s with scroll_offset := s.scroll_offset - max s.content_height 1 }
  | InputEvent.pageDown =>
      { s with scroll_offset := satAdd16 s.scroll_offset (max s.content_height 1) }
  | InputEvent.ctrlC => { s with should_quit := true }
  | InputEvent.textEdit v => { s with searchValue := v, scroll_offset := 0 }

/-- The one-time load step of App::run (lines 66-69). -/
def loadStep (user system : Option Config) (s : AppState) : AppState :=
  if s.items_loaded then s
  else { s with items := load_keybinds user system, items_loaded := true }

/-- What render_content draws: the loading placeholder, the no-match message
before line construction, the second no-match fallback after it, or the line
list together with the clamped scroll actually applied to the paragraph. -/
inductive RenderOutcome where
  | loading
  | noMatches
  | noMatchesPost
  | content (lines : List String) (scroll : Nat)
deriving DecidableEq, Repr

/-- App::render_content (lines 180-243).  It stores the viewport height,
filters the items, builds the lines, and applies
min(scroll_offset, max_scroll as u16) to the drawn paragraph; the stored
scroll_offset field is not written back. -/
def renderContent (s : AppState) (w h : Nat) : AppState × RenderOutcome :=
  if s.items_loaded = false then (s, RenderOutcome.loading)
  else
    let s1 := { s with content_height := h }
    let filtered := filterItems s.items s.searchValue
    if filtered.isEmpty then (s1, RenderOutcome.noMatches)
    else
      let lines := buildLines filtered w
      if lines.isEmpty then (s1, RenderOutcome.noMatchesPost)
      else
        let maxScroll := lines.length - h
        (s1, RenderOutcome.content lines (min s.scroll_offset (maxScroll % 65536)))

/-- The scroll value a render outcome applies to the drawn paragraph. -/
def scrollOf : RenderOutcome → Nat
  | RenderOutcome.content _ sc => sc
  | _ => 0

/-- Total number of content lines the state lays out at width w. -/
def totalLines (s : AppState) (w : Nat) : Nat :=
  (buildLines (filterItems s.items s.searchValue) w).length

/-- One iteration of the main loop App::run (lines 59-73): draw the frame,
load the store if not yet loaded, then dispatch one input event. -/
def loopIter (user system : Option Config) (w h : Nat) (s : AppState)
    (e : InputEvent) : AppState :=
  handleEvent (loadStep user system (renderContent s w h).1) e

/-- Claim C1 as stated: after every sequence of loop iterations the stored
scroll offset lies within [0, max (0, total_lines - viewport_height)]. -/
def storedScrollClaim : Prop :=
  ∀ (user system : Option Config) (w h : Nat) (evs : List InputEvent),
    (evs.foldl (loopIter user system w h) initApp).scroll_offset
      ≤ totalLines (evs.foldl (loopIter user system w h) initApp) w - h

/-- Claim C2 as stated: on the key/name line the key combination and the name
are separated by exactly w - |keys| - |name| spaces, and by exactly one space
when that computed value is zero or negative. -/
def keyNameSepClaim : Prop :=
  ∀ (kb : Keybind) (w : Nat),
    keyNameLine kb w
      = kb.keys ++ spaces (if kb.keys.length + kb.name.length < w
          then w - kb.keys.length - kb.name.length else 1) ++ kb.name

theorem data_append (s t : String) : (s ++ t).data = s.data ++ t.data := by
  cases s; cases t; rfl

theorem strLength_append (s t : String) : (s ++ t).length = s.length + t.length := by
  cases s; cases t; simp [String.length, String.append]

theorem length_spaces (n : Nat) : (spaces n).length = n := by
  simp [spaces, String.length]

theorem length_dashes (n : Nat) : (dashes n).length = n := by
  simp [dashes, String.length]

theorem str_eq_of_data {s t : String} (h : s.data = t.data) : s = t := by
  cases s; cases t; exact congrArg String.mk h

theorem substrB_empty (hay : String) : substrB "" hay = true := by
  simp [substrB]

theorem toLowerStr_empty : toLowerStr "" = "" := rfl

theorem handleEvent_items (s : AppState) (e : InputEvent) :
    (handleEvent s e).items = s.items := by
  cases e <;> rfl

theorem handleEvent_items_loaded (s : AppState) (e : InputEvent) :
    (handleEvent s e).items_loaded = s.items_loaded := by
  cases e <;> rfl

theorem foldl_handleEvent_items (evs : List InputEvent) (s : AppState) :
    (evs.foldl handleEvent s).items = s.items := by
  induction evs generalizing s with
  | nil => rfl
  | cons e rest ih =>
      rw [List.foldl_cons, ih (handleEvent s e), handleEvent_items]

theorem two_mul_le_length_buildLines (items : List Keybind) (w : Nat) :
    2 * items.length ≤ (buildLines items w).length := by
  induction items with
  | nil => simp [buildLines]
  | cons a rest ih =>
      by_cases hd : a.desc = "" <;>
        simp [buildLines, hd, List.length_append] <;> omega

/-- C3: for a description of trimmed length d and a width w with w >= d + 4,
make_desc_line produces dashes, a space, the trimmed description, a space and
dashes, with left = (w - d - 2) / 2 dashes and right = (w - d - 2) - left
dashes; the line has total length exactly w and the odd leftover dash goes to
the right side (right = left + (w - d - 2) % 2). -/
theorem C3_desc_dash_layout (desc : String) (w : Nat)
    (h : (trimStr desc).length + 4 ≤ w) :
    make_desc_line desc w
      = dashes ((w - (trimStr desc).length - 2) / 2) ++ " " ++ trimStr desc ++ " "
        ++ dashes ((w - (trimStr desc).length - 2) - (w - (trimStr desc).length - 2) / 2)
  ∧ (make_desc_line desc w).length = w
  ∧ (w - (trimStr desc).length - 2) - (w - (trimStr desc).length - 2) / 2
      = (w - (trimStr desc).length - 2) / 2 + (w - (trimStr desc).length - 2) % 2 := by
  have hw0 : ¬ (w = 0) := by omega
  have hlt : ¬ (w < (trimStr desc).length + 4) := by omega
  have heq : make_desc_line desc w
      = dashes ((w - (trimStr desc).length - 2) / 2) ++ " " ++ trimStr desc ++ " "
        ++ dashes ((w - (trimStr desc).length - 2) - (w - (trimStr desc).length - 2) / 2) := by
    simp only [make_desc_line]
    rw [if_neg hw0, if_neg hlt]
  refine ⟨heq, ?_, by omega⟩
  rw [heq]
  simp only [strLength_append, length_dashes]
  have h1 : (" " : String).length = 1 := rfl
  rw [h1]
  omega

/-- C3 witness: the theorem applied at description " hi " and width 10. -/
theorem C3_desc_dash_layout_witness :
    (trimStr " hi ").length + 4 ≤ 10 ∧ (make_desc_line " hi " 10).length = 10 :=
  ⟨by decide, (C3_desc_dash_layout " hi " 10 (by decide)).2.1⟩

/-- C7: for a description of trimmed length d and a width w with w < d + 4,
make_desc_line returns the raw trimmed description, with no dashes and no
padding. -/
theorem C7_raw_description_when_narrow (desc : String) (w : Nat)
    (h : w < (trimStr desc).length + 4) :
    make_desc_line desc w = trimStr desc := by
  simp only [make_desc_line]
  by_cases h0 : w = 0
  · rw [if_pos h0]
  · rw [if_neg h0, if_pos h]

/-- C7 witness: the theorem applied at description "hello" and width 6. -/
theorem C7_raw_description_when_narrow_witness :
    6 < (trimStr "hello").length + 4 ∧ make_desc_line "hello" 6 = trimStr "hello" :=
  ⟨by decide, C7_raw_description_when_narrow "hello" 6 (by decide)⟩

/-- C4: when neither the user tier nor the system tier yields a non-empty
parsed keybind list, load_keybinds returns exactly the fixed 4-entry default
list with keys/names SUPER + SPACE/Launcher, SUPER + B/Web Browser,
SUPER + ENTER/Terminal, SUPER + Q/Close Window. -/
theorem C4_defaults_when_no_tier (user system : Option Config)
    (hu : ∀ cfg, user = some cfg → cfg.keybinds = [])
    (hs : ∀ cfg, system = some cfg → cfg.keybinds = []) :
    load_keybinds user system
      = [⟨"SUPER + SPACE", "Launcher", "Open app launcher"⟩,
         ⟨"SUPER + B", "Web Browser", "Open default browser"⟩,
         ⟨"SUPER + ENTER", "Terminal", "Open terminal"⟩,
         ⟨"SUPER + Q", "Close Window", "Close focused window"⟩] := by
  have hsys : fromSystem system
      = [⟨"SUPER + SPACE", "Launcher", "Open app launcher"⟩,
         ⟨"SUPER + B", "Web Browser", "Open default browser"⟩,
         ⟨"SUPER + ENTER", "Terminal", "Open terminal"⟩,
         ⟨"SUPER + Q", "Close Window", "Close focused window"⟩] := by
    cases system with
    | none => rfl
    | some cfg =>
        have hc := hs cfg rfl
        show (if cfg.keybinds.isEmpty then default_keybinds else cfg.keybinds) = _
        rw [hc]
        rfl
  cases user with
  | none => exact hsys
  | some cfg =>
      have hc := hu cfg rfl
      show (if cfg.keybinds.isEmpty then fromSystem system else cfg.keybinds) = _
      rw [hc]
      exact hsys

/-- C4 witness: the theorem applied with an empty-list user tier and a missing
system tier. -/
theorem C4_defaults_when_no_tier_witness :
    load_keybinds (some ⟨[]⟩) none
      = [⟨"SUPER + SPACE", "Launcher", "Open app launcher"⟩,
         ⟨"SUPER + B", "Web Browser", "Open default browser"⟩,
         ⟨"SUPER + ENTER", "Terminal", "Open terminal"⟩,
         ⟨"SUPER + Q", "Close Window", "Close focused window"⟩] :=
  C4_defaults_when_no_tier (some ⟨[]⟩) none
    (fun _cfg hcfg => by cases hcfg; rfl)
    (fun _cfg hcfg => by cases hcfg)

/-- C6: if the user tier parses to a non-empty list, load_keybinds returns
exactly that list regardless of the system tier, and a user tier that parses
to an empty list is rejected exactly like a missing or unparseable one. -/
theorem C6_user_tier_priority (cfg : Config) (system : Option Config)
    (h : cfg.keybinds ≠ []) :
    load_keybinds (some cfg) system = cfg.keybinds
  ∧ load_keybinds (some ⟨[]⟩) system = load_keybinds none system := by
  refine ⟨?_, rfl⟩
  obtain ⟨l⟩ := cfg
  cases l with
  | nil => exact absurd rfl h
  | cons a t => rfl

/-- C6 witness: the theorem applied with a one-entry user tier and a
different, also non-empty, system tier. -/
theorem C6_user_tier_priority_witness :
    (Config.mk [⟨"a", "b", "c"⟩]).keybinds ≠ []
  ∧ load_keybinds (some ⟨[⟨"a", "b", "c"⟩]⟩) (some ⟨[⟨"x", "y", "z"⟩]⟩)
      = [⟨"a", "b", "c"⟩] :=
  ⟨by decide,
   (C6_user_tier_priority ⟨[⟨"a", "b", "c"⟩]⟩ (some ⟨[⟨"x", "y", "z"⟩]⟩) (by decide)).1⟩

/-- C5: for every store and query, the filtered sequence is a sublist of the
store (subset preserving relative order), and a keybind is included iff the
case-folded query is a contiguous substring of the case-folded name or of the
case-folded description. -/
theorem C5_filter_sublist_and_membership (items : List Keybind) (query : String) :
    List.Sublist (filterItems items query) items
  ∧ ∀ kb : Keybind,
      kb ∈ filterItems items query
        ↔ kb ∈ items
          ∧ ((toLowerStr query).data <:+: (toLowerStr kb.name).data
             ∨ (toLowerStr query).data <:+: (toLowerStr kb.desc).data) := by
  refine ⟨List.filter_sublist items, fun kb => ?_⟩
  rw [filterItems, List.mem_filter]
  simp [matchesQuery, substrB]

/-- C8: filtering with the empty query returns the full store unchanged. -/
theorem C8_empty_query_full_store (items : List Keybind) :
    filterItems items "" = items := by
  rw [filterItems]
  apply List.filter_eq_self.mpr
  intro kb _
  rw [toLowerStr_empty]
  simp [matchesQuery, substrB_empty]

theorem spaces_succ (n : Nat) : spaces (n + 1) = " " ++ spaces n := rfl

/-- C2 counterexample: at keys "K", name "N" and width 2 the computed value
w - |keys| - |name| is 0, so the claim demands exactly one separating space,
but the rendered line is the keys, two spaces and the name (the key column
carries one built-in trailing space on top of the minimum one-space spacer). -/
theorem C2_counterexample_min_separator : ¬ keyNameSepClaim := by
  intro hcl
  exact absurd (hcl ⟨"K", "N", ""⟩ 2) (by decide)

/-- C2 (amended): the key/name line is the key combination, a separating run
of spaces, then the name; the separator has w - |keys| - |name| spaces when
that value is at least 2, and exactly two spaces (the key column's built-in
trailing space plus the minimum one-space spacer) when it is at most 1. -/
theorem C2_key_name_spacing (kb : Keybind) (w : Nat) :
    keyNameLine kb w
      = kb.keys ++ spaces (if kb.keys.length + 1 + kb.name.length < w
          then w - kb.keys.length - kb.name.length else 2) ++ kb.name := by
  have hres : (kb.keys ++ " ").length = kb.keys.length + 1 := by
    rw [strLength_append]; rfl
  simp only [keyNameLine, hres]
  by_cases hlt : kb.keys.length + 1 + kb.name.length < w
  · rw [if_pos hlt, if_pos hlt]
    have ha : w - kb.keys.length - kb.name.length
        = (w - (kb.keys.length + 1 + kb.name.length)) + 1 := by omega
    rw [ha, spaces_succ]
    apply str_eq_of_data
    simp [data_append, spaces]
  · rw [if_neg hlt, if_neg hlt]
    have h2 : spaces 2 = " " ++ spaces 1 := rfl
    rw [h2]
    apply str_eq_of_data
    simp [data_append, spaces]

/-- C1 counterexample: from the freshly loaded application (defaults, empty
query, 12 content lines) one ScrollDown at viewport height 20 leaves the
stored scroll offset at 1 while max(0, total_lines - viewport_height) = 0,
so the stored offset does not stay within the claimed range. -/
theorem C1_counterexample_stored_offset : ¬ storedScrollClaim := by
  intro hcl
  exact absurd (hcl none none 80 20 [InputEvent.down]) (by decide)

/-- C1 (amended): the scroll value actually applied at render time is clamped
into [0, max (0, total_lines - viewport_height)], and rendering never writes
the clamp back: the stored scroll offset is left untouched by render_content
(only handle_events changes it, so it can persist above the bound). -/
theorem C1_render_scroll_clamped (s : AppState) (w h : Nat) :
    scrollOf (renderContent s w h).2 ≤ totalLines s w - h
  ∧ (renderContent s w h).1.scroll_offset = s.scroll_offset := by
  simp only [renderContent]
  split
  · exact ⟨Nat.zero_le _, rfl⟩
  · split
    · exact ⟨Nat.zero_le _, rfl⟩
    · split
      · exact ⟨Nat.zero_le _, rfl⟩
      · refine ⟨?_, rfl⟩
        show min s.scroll_offset
            (((buildLines (filterItems s.items s.searchValue) w).length - h) % 65536)
          ≤ totalLines s w - h
        exact le_trans (min_le_right _ _) (Nat.mod_le _ _)

theorem renderContent_fst_items (s : AppState) (w h : Nat) :
    (renderContent s w h).1.items = s.items := by
  simp only [renderContent]
  split
  · rfl
  · split
    · rfl
    · split
      · rfl
      · rfl

theorem renderContent_fst_items_loaded (s : AppState) (w h : Nat) :
    (renderContent s w h).1.items_loaded = s.items_loaded := by
  simp only [renderContent]
  split
  · rfl
  · split
    · rfl
    · split
      · rfl
      · rfl

theorem loadStep_items_loaded (user system : Option Config) (s : AppState) :
    (loadStep user system s).items_loaded = true := by
  by_cases hb : s.items_loaded
  · simp [loadStep, hb]
  · simp [loadStep, hb]

/-- C9: the keybind store is assigned exactly once and never mutated after:
input dispatch (single events and whole event sequences) and rendering leave
the items list and the loaded flag unchanged; the load step from the initial
unloaded state stores load_keybinds and sets the flag, and once the flag is
set the load step is the identity. -/
theorem C9_store_immutable (user system : Option Config) (s : AppState)
    (e : InputEvent) (evs : List InputEvent) (w h : Nat) :
    (handleEvent s e).items = s.items
  ∧ (handleEvent s e).items_loaded = s.items_loaded
  ∧ (evs.foldl handleEvent s).items = s.items
  ∧ (renderContent s w h).1.items = s.items
  ∧ (renderContent s w h).1.items_loaded = s.items_loaded
  ∧ (loadStep user system s).items_loaded = true
  ∧ loadStep user system { s with items_loaded := true } = { s with items_loaded := true }
  ∧ (loadStep user system { s with items_loaded := false }).items
      = load_keybinds user system :=
  ⟨handleEvent_items s e, handleEvent_items_loaded s e,
   foldl_handleEvent_items evs s,
   renderContent_fst_items s w h, renderContent_fst_items_loaded s w h,
   loadStep_items_loaded user system s, rfl, rfl⟩

/-- C10: for a non-empty filtered list the layout produces at least two lines
per entry, hence a non-empty line list, and the second no-match fallback
tested after line construction in render_content can never be drawn. -/
theorem C10_nonempty_layout (items : List Keybind) (w : Nat) (h : items ≠ []) :
    buildLines items w ≠ []
  ∧ 2 * items.length ≤ (buildLines items w).length
  ∧ ∀ (s : AppState) (w2 h2 : Nat),
      (renderContent s w2 h2).2 ≠ RenderOutcome.noMatchesPost := by
  refine ⟨?_, two_mul_le_length_buildLines items w, ?_⟩
  · cases items with
    | nil => exact absurd rfl h
    | cons a rest => simp [buildLines]
  · intro s w2 h2
    simp only [renderContent]
    split
    · simp
    · split
      · simp
      · split
        · next hfil hlin =>
            exfalso
            have h2le := two_mul_le_length_buildLines (filterItems s.items s.searchValue) w2
            have hlen : (buildLines (filterItems s.items s.searchValue) w2).length = 0 := by
              rw [List.length_eq_zero]
              exact List.isEmpty_iff.mp hlin
            have hfl : (filterItems s.items s.searchValue).length = 0 := by omega
            exact hfil (by rw [List.isEmpty_iff, ← List.length_eq_zero]; exact hfl)
        · simp

/-- C10 witness: the theorem applied to a one-entry filtered list at width 10. -/
theorem C10_nonempty_layout_witness :
    ([⟨"SUPER + Q", "Close Window", "Close focused window"⟩] : List Keybind) ≠ []
  ∧ buildLines [⟨"SUPER + Q", "Close Window", "Close focused window"⟩] 10 ≠ [] :=
  ⟨by decide,
   (C10_nonempty_layout [⟨"SUPER + Q", "Close Window", "Close focused window"⟩] 10
     (by decide)).1⟩

end KeybindMenu
